import Mathlib

/-!
Verification of the fault decision and application engine of the
nas-fault-simulator FUSE driver.  The definitions below are a shallow
embedding of `src/fuse-driver/src/fault_injector.c`,
`src/fuse-driver/src/config.c` and the per-operation wrapper functions of
`src/fuse-driver/src/fs_fault_injector.c`.  C machine integers are
modelled as `Nat`/`Int`, C floats/doubles as `ℚ`, the `rand()` stream as
an explicit function `Nat → Nat`, and each `check_probability` draw as an
explicit rational in `[0,1)` supplied by the caller.
-/

namespace NasFaultSim

/-- Operation taxonomy, mirroring `fs_op_type_t` in `fs_common.h`. -/
inductive fs_op_type_t where
  | FS_OP_GETATTR
  | FS_OP_READDIR
  | FS_OP_CREATE
  | FS_OP_MKNOD
  | FS_OP_READ
  | FS_OP_WRITE
  | FS_OP_OPEN
  | FS_OP_RELEASE
  | FS_OP_MKDIR
  | FS_OP_RMDIR
  | FS_OP_UNLINK
  | FS_OP_RENAME
  | FS_OP_ACCESS
  | FS_OP_CHMOD
  | FS_OP_CHOWN
  | FS_OP_TRUNCATE
  | FS_OP_UTIMENS
  deriving DecidableEq

open fs_op_type_t

/-- Numeric value of each enum constant (`FS_OP_GETATTR = 0`, ...). -/
def fsOpIndex : fs_op_type_t → Nat
  | FS_OP_GETATTR => 0
  | FS_OP_READDIR => 1
  | FS_OP_CREATE => 2
  | FS_OP_MKNOD => 3
  | FS_OP_READ => 4
  | FS_OP_WRITE => 5
  | FS_OP_OPEN => 6
  | FS_OP_RELEASE => 7
  | FS_OP_MKDIR => 8
  | FS_OP_RMDIR => 9
  | FS_OP_UNLINK => 10
  | FS_OP_RENAME => 11
  | FS_OP_ACCESS => 12
  | FS_OP_CHMOD => 13
  | FS_OP_CHOWN => 14
  | FS_OP_TRUNCATE => 15
  | FS_OP_UTIMENS => 16

/-- The structure `fault_error_t` from `config.h`. -/
structure fault_error_t where
  probability : ℚ
  error_code : Int
  operations_mask : Nat

/-- The structure `fault_corruption_t` from `config.h`. -/
structure fault_corruption_t where
  probability : ℚ
  percentage : ℚ
  silent : Bool
  operations_mask : Nat

/-- The structure `fault_delay_t` from `config.h`. -/
structure fault_delay_t where
  probability : ℚ
  delay_ms : Int
  operations_mask : Nat

/-- The structure `fault_timing_t` from `config.h`. -/
structure fault_timing_t where
  enabled : Bool
  after_minutes : Int
  operations_mask : Nat

/-- The structure `fault_operation_count_t` from `config.h`. -/
structure fault_operation_count_t where
  enabled : Bool
  every_n_operations : Int
  after_bytes : Nat
  operations_mask : Nat

/-- The structure `fault_partial_t` from `config.h`. -/
structure fault_partial_t where
  probability : ℚ
  factor : ℚ
  operations_mask : Nat

/-- The fault-relevant part of `fs_config_t` from `config.h` (the
path/logging fields play no role in the fault engine). -/
structure fs_config_t where
  enable_fault_injection : Bool
  error_fault : Option fault_error_t
  corruption_fault : Option fault_corruption_t
  delay_fault : Option fault_delay_t
  timing_fault : Option fault_timing_t
  operation_count_fault : Option fault_operation_count_t
  partial_fault : Option fault_partial_t

/-- The structure `operation_stats_t` from `fault_injector.c`; `time_t` values are
modelled as integer seconds. -/
structure operation_stats_t where
  bytes_read : Nat
  bytes_written : Nat
  operation_count : Int
  start_time : Int
  op_counts : fs_op_type_t → Int

/-- The all-zero statistics state produced by `fault_injector_init`
(with `start_time = 0`). -/
def zero_stats : operation_stats_t :=
  { bytes_read := 0
    bytes_written := 0
    operation_count := 0
    start_time := 0
    op_counts := fun _ => 0 }

/-- The function `config_should_affect_operation` from `config.c`: mask 0 affects
nothing, mask `0xFFFFFFFF` affects everything, otherwise test the
operation's bit. -/
def config_should_affect_operation (operations_mask : Nat) (operation : fs_op_type_t) : Bool :=
  if operations_mask = 0 then false
  else if operations_mask = 0xFFFFFFFF then true
  else Nat.testBit operations_mask (fsOpIndex operation)

/-- The function `check_probability` from `fault_injector.c`.  The uniform draw
`r ∈ [0,1)` made by `rand()` is passed in explicitly. -/
def check_probability (probability : ℚ) (r : ℚ) : Bool :=
  if probability ≤ 0 then false
  else if 1 ≤ probability then true
  else decide (r < probability)

/-- The function `check_timing_fault` from `fault_injector.c`.  `now` is the current
wall-clock time in seconds; the C code compares
`difftime(now, start_time) / 60.0` against `after_minutes` and only
fires when `after_minutes > 0`. -/
def check_timing_fault (config : fs_config_t) (stats : operation_stats_t) (now : Int)
    (operation : fs_op_type_t) : Bool :=
  match config.timing_fault with
  | none => false
  | some tf =>
    if !config.enable_fault_injection || !tf.enabled then false
    else if !config_should_affect_operation tf.operations_mask operation then false
    else if 0 < tf.after_minutes then
      if ((now - stats.start_time : Int) : ℚ) / 60 < (tf.after_minutes : ℚ) then false
      else true
    else false

/-- The function `check_operation_count_fault` from `fault_injector.c`: fires when the
current `operation_count` is a multiple of `every_n_operations` (if that
is positive), or when total bytes processed reached `after_bytes` (if
that is positive). -/
def check_operation_count_fault (config : fs_config_t) (stats : operation_stats_t)
    (operation : fs_op_type_t) : Bool :=
  match config.operation_count_fault with
  | none => false
  | some cf =>
    if !config.enable_fault_injection || !cf.enabled then false
    else if !config_should_affect_operation cf.operations_mask operation then false
    else if 0 < cf.every_n_operations ∧ stats.operation_count % cf.every_n_operations = 0 then
      true
    else if 0 < cf.after_bytes ∧ cf.after_bytes ≤ stats.bytes_read + stats.bytes_written then
      true
    else false

/-- The function `apply_error_fault` from `fault_injector.c`.  Returns `some code`
when the fault fires (the C function returns `true` and stores `code`
through its out-parameter), `none` otherwise. -/
def apply_error_fault (config : fs_config_t) (operation : fs_op_type_t) (r : ℚ) : Option Int :=
  match config.error_fault with
  | none => none
  | some ef =>
    if !config.enable_fault_injection then none
    else if !config_should_affect_operation ef.operations_mask operation then none
    else if !check_probability ef.probability r then none
    else some ef.error_code

/-- The function `apply_delay_fault` from `fault_injector.c`.  Returns whether the
`usleep` was performed. -/
def apply_delay_fault (config : fs_config_t) (operation : fs_op_type_t) (r : ℚ) : Bool :=
  match config.delay_fault with
  | none => false
  | some df =>
    if !config.enable_fault_injection then false
    else if !config_should_affect_operation df.operations_mask operation then false
    else if !check_probability df.probability r then false
    else true

/-- The function `apply_partial_fault` from `fault_injector.c`: when it fires, the
size becomes `(size_t)(original_size * factor)` raised to 1 if that
truncation is 0. -/
def apply_partial_fault (config : fs_config_t) (operation : fs_op_type_t)
    (original_size : Nat) (r : ℚ) : Nat :=
  match config.partial_fault with
  | none => original_size
  | some pf =>
    if !config.enable_fault_injection || original_size = 0 then original_size
    else if !config_should_affect_operation pf.operations_mask operation then original_size
    else if !check_probability pf.probability r then original_size
    else
      let new_size := (⌊(original_size : ℚ) * pf.factor⌋).toNat
      if new_size = 0 then 1 else new_size

/-- The corruption strike count computed by `apply_corruption_fault`:
`(size_t)(size * percentage / 100.0)`, raised to 1 when the percentage is
positive but the truncation is 0, then capped at `size`. -/
def corrupt_bytes_count (size : Nat) (percentage : ℚ) : Nat :=
  let c0 := (⌊(size : ℚ) * percentage / 100⌋).toNat
  let c1 := if c0 = 0 ∧ 0 < percentage then 1 else c0
  if size < c1 then size else c1

/-- The corruption loop of `apply_corruption_fault`: strike `i` draws
`rand()` twice, writing byte `rng (2*i+1) % 256` at position
`rng (2*i) % size`. -/
def corruptLoop (rng : Nat → Nat) (size : Nat) (k : Nat) (buffer : List Nat) : List Nat :=
  (List.range k).foldl (fun buf i => buf.set (rng (2 * i) % size) (rng (2 * i + 1) % 256)) buffer

/-- The function `apply_corruption_fault` from `fault_injector.c`.  A NULL buffer is
modelled as `none`.  Returns the (possibly corrupted) buffer and whether
the fault was applied (the C return value). -/
def apply_corruption_fault (config : fs_config_t) (operation : fs_op_type_t)
    (buffer : Option (List Nat)) (size : Nat) (r : ℚ) (rng : Nat → Nat) :
    Option (List Nat) × Bool :=
  match config.corruption_fault with
  | none => (buffer, false)
  | some cf =>
    if !config.enable_fault_injection then (buffer, false)
    else
      match buffer with
      | none => (none, false)
      | some buf =>
        if size = 0 then (some buf, false)
        else if !config_should_affect_operation cf.operations_mask operation then (some buf, false)
        else if !check_probability cf.probability r then (some buf, false)
        else if cf.percentage < 0 ∨ 100 < cf.percentage then (some buf, false)
        else (some (corruptLoop rng size (corrupt_bytes_count size cf.percentage) buf), true)

/-- The function `should_trigger_fault` from `fault_injector.c`: after the master
switch passes, the counters are incremented, the timing condition is
checked, and the count condition is checked with `operation_count`
temporarily restored to its pre-increment value.  Returns the decision
together with the updated statistics. -/
def should_trigger_fault (config : fs_config_t) (stats : operation_stats_t) (now : Int)
    (operation : fs_op_type_t) : Bool × operation_stats_t :=
  if !config.enable_fault_injection then (false, stats)
  else
    let old_count := stats.operation_count
    let stats1 : operation_stats_t :=
      { stats with
          operation_count := stats.operation_count + 1
          op_counts := Function.update stats.op_counts operation (stats.op_counts operation + 1) }
    if check_timing_fault config stats1 now operation then (true, stats1)
    else if check_operation_count_fault config { stats1 with operation_count := old_count }
        operation then (true, stats1)
    else (false, stats1)

/-- The function `update_operation_stats` from `fault_injector.c`. -/
def update_operation_stats (operation : fs_op_type_t) (stats : operation_stats_t)
    (bytes : Nat) : operation_stats_t :=
  if operation = FS_OP_READ then { stats with bytes_read := stats.bytes_read + bytes }
  else if operation = FS_OP_WRITE then { stats with bytes_written := stats.bytes_written + bytes }
  else stats

/-- The POSIX `EIO` errno value. -/
def EIO_code : Int := 5

/-- Outcome of a wrapper that carries no data buffer (`fs_fault_getattr`
and the other generic handlers in `fs_fault_injector.c`). -/
structure generic_outcome where
  ret : Int
  slept : Bool
  backend_invoked : Bool
  stats : operation_stats_t

/-- The function `fs_fault_getattr` from `fs_fault_injector.c` (the shape shared by
every handler except `fs_fault_read`/`fs_fault_write`): run
`should_trigger_fault`, then `should_fault || apply_error_fault(...)`
short-circuits with `error_code` (initialised to `-EIO_code`), then the delay
fault runs and the backend result is returned.  `backend` is the result
the pass-through backend would report. -/
def fs_fault_getattr (config : fs_config_t) (stats : operation_stats_t) (now : Int)
    (r_err r_delay : ℚ) (backend : Int) : generic_outcome :=
  let sf := should_trigger_fault config stats now FS_OP_GETATTR
  if sf.1 then
    { ret := -EIO_code, slept := false, backend_invoked := false, stats := sf.2 }
  else
    match apply_error_fault config FS_OP_GETATTR r_err with
    | some code => { ret := code, slept := false, backend_invoked := false, stats := sf.2 }
    | none =>
      let slept := apply_delay_fault config FS_OP_GETATTR r_delay
      { ret := backend, slept := slept, backend_invoked := true, stats := sf.2 }

/-- Outcome of `fs_fault_read`: `used_size` is the size actually passed
to the backend (`none` when the backend was not invoked). -/
structure read_outcome where
  ret : Int
  slept : Bool
  backend_invoked : Bool
  used_size : Option Nat
  stats : operation_stats_t

/-- The function `fs_fault_read` from `fs_fault_injector.c`.  `fi_null` tells whether
the call came without a file handle (triggering the `R_OK` access
check, whose backend result is `access_res`); `backendRead` maps the
adjusted size to the backend's return code.  Note the statistics update
runs regardless of the master switch. -/
def fs_fault_read (config : fs_config_t) (stats : operation_stats_t) (now : Int)
    (r_err r_delay r_part : ℚ) (fi_null : Bool) (access_res : Int)
    (backendRead : Nat → Int) (size : Nat) : read_outcome :=
  let sf := should_trigger_fault config stats now FS_OP_READ
  if sf.1 then
    { ret := -EIO_code, slept := false, backend_invoked := false, used_size := none, stats := sf.2 }
  else
    match apply_error_fault config FS_OP_READ r_err with
    | some code =>
      { ret := code, slept := false, backend_invoked := false, used_size := none, stats := sf.2 }
    | none =>
      let slept := apply_delay_fault config FS_OP_READ r_delay
      if fi_null ∧ access_res ≠ 0 then
        { ret := access_res, slept := slept, backend_invoked := false, used_size := none,
          stats := sf.2 }
      else
        let adjusted_size := apply_partial_fault config FS_OP_READ size r_part
        let res := backendRead adjusted_size
        let stats2 := if 0 < res then update_operation_stats FS_OP_READ sf.2 res.toNat else sf.2
        { ret := res, slept := slept, backend_invoked := true, used_size := some adjusted_size,
          stats := stats2 }

/-- Outcome of `fs_fault_write`: `corrupted` records whether the backend
was handed the corrupted copy instead of the caller's buffer. -/
structure write_outcome where
  ret : Int
  slept : Bool
  backend_invoked : Bool
  used_size : Option Nat
  corrupted : Bool
  stats : operation_stats_t

/-- The function `fs_fault_write` from `fs_fault_injector.c`.  This handler never
calls `should_trigger_fault`; it checks error, timing and count faults
itself in strict priority order, then the `W_OK` access check
(`access_res`), then delay, partial and write-side corruption.  The
corruption guard and `apply_corruption_fault` each make their own
probability draw (`r_corr1`, `r_corr2`); on success the backend is
invoked with a corrupted copy of the first `actual_size` bytes of the
caller's buffer. -/
def fs_fault_write (config : fs_config_t) (stats : operation_stats_t) (now : Int)
    (r_err r_delay r_part r_corr1 r_corr2 : ℚ) (rng : Nat → Nat)
    (buf : List Nat) (size : Nat) (access_res : Int)
    (backendWrite : List Nat → Nat → Int) : write_outcome :=
  if !config.enable_fault_injection then
    let res := backendWrite buf size
    { ret := res, slept := false, backend_invoked := true, used_size := some size,
      corrupted := false, stats := stats }
  else
    match apply_error_fault config FS_OP_WRITE r_err with
    | some code =>
      { ret := code, slept := false, backend_invoked := false, used_size := none,
        corrupted := false, stats := stats }
    | none =>
      if check_timing_fault config stats now FS_OP_WRITE then
        { ret := -EIO_code, slept := false, backend_invoked := false, used_size := none,
          corrupted := false, stats := stats }
      else if check_operation_count_fault config stats FS_OP_WRITE then
        { ret := -EIO_code, slept := false, backend_invoked := false, used_size := none,
          corrupted := false, stats := stats }
      else if access_res ≠ 0 then
        { ret := access_res, slept := false, backend_invoked := false, used_size := none,
          corrupted := false, stats := stats }
      else
        let slept := apply_delay_fault config FS_OP_WRITE r_delay
        let actual_size := apply_partial_fault config FS_OP_WRITE size r_part
        let corrupted_buf : Option (List Nat) :=
          match config.corruption_fault with
          | none => none
          | some cf =>
            if config_should_affect_operation cf.operations_mask FS_OP_WRITE
                && check_probability cf.probability r_corr1 then
              match apply_corruption_fault config FS_OP_WRITE (some (buf.take actual_size))
                  actual_size r_corr2 rng with
              | (some corrupted, true) => some corrupted
              | _ => none
            else none
        let final_buf := corrupted_buf.getD buf
        let res := backendWrite final_buf actual_size
        let stats2 :=
          if 0 < res then update_operation_stats FS_OP_WRITE stats res.toNat else stats
        { ret := res, slept := slept, backend_invoked := true, used_size := some actual_size,
          corrupted := corrupted_buf.isSome, stats := stats2 }

/-- Statistics state after `k` consecutive `fs_fault_getattr` calls
starting from `zero_stats`; call number `k+1` is issued against
`getattr_run config now backend k`.  The probability draws are
irrelevant for the configurations considered and are fixed at 0. -/
def getattr_run (config : fs_config_t) (now : Int) (backend : Nat → Int) :
    Nat → operation_stats_t
  | 0 => zero_stats
  | k + 1 =>
    (fs_fault_getattr config (getattr_run config now backend k) now 0 0 (backend k)).stats

/-- Return code of the `k`-th (1-based) call in a run of consecutive
`fs_fault_getattr` calls. -/
def getattr_call_ret (config : fs_config_t) (now : Int) (backend : Nat → Int) (k : Nat) : Int :=
  (fs_fault_getattr config (getattr_run config now backend (k - 1)) now 0 0 (backend (k - 1))).ret

/-- Test plan for the count-periodicity property: count fault enabled
with period `N`, `after_bytes = 0`, mask `all`, every other fault
absent. -/
def count_only_config (N : Int) : fs_config_t :=
  { enable_fault_injection := true
    error_fault := none
    corruption_fault := none
    delay_fault := none
    timing_fault := none
    operation_count_fault :=
      some { enabled := true, every_n_operations := N, after_bytes := 0,
             operations_mask := 0xFFFFFFFF }
    partial_fault := none }

/-- Test plan for the precedence property: error fault certain to fire
with errno `-2`, timing fault enabled with a 1-minute threshold, mask
`all` on both, every other fault absent. -/
def error_and_timing_config : fs_config_t :=
  { enable_fault_injection := true
    error_fault :=
      some { probability := 1, error_code := -2, operations_mask := 0xFFFFFFFF }
    corruption_fault := none
    delay_fault := none
    timing_fault :=
      some { enabled := true, after_minutes := 1, operations_mask := 0xFFFFFFFF }
    operation_count_fault := none
    partial_fault := none }

/-- A plan with the master switch off and no fault descriptors. -/
def disabled_config : fs_config_t :=
  { enable_fault_injection := false
    error_fault := none
    corruption_fault := none
    delay_fault := none
    timing_fault := none
    operation_count_fault := none
    partial_fault := none }

/-- Test plan for the timing-threshold edge: timing fault enabled with
`after_minutes = 0`, mask `all`, every other fault absent. -/
def timing_zero_config : fs_config_t :=
  { enable_fault_injection := true
    error_fault := none
    corruption_fault := none
    delay_fault := none
    timing_fault :=
      some { enabled := true, after_minutes := 0, operations_mask := 0xFFFFFFFF }
    operation_count_fault := none
    partial_fault := none }

/-- Test plan with only an always-on write-corruption fault. -/
def corruption_only_config (percentage : ℚ) : fs_config_t :=
  { enable_fault_injection := true
    error_fault := none
    corruption_fault :=
      some { probability := 1, percentage := percentage, silent := true,
             operations_mask := 0xFFFFFFFF }
    delay_fault := none
    timing_fault := none
    operation_count_fault := none
    partial_fault := none }

/-- Test plan with only an always-on partial fault. -/
def partial_only_config (factor : ℚ) : fs_config_t :=
  { enable_fault_injection := true
    error_fault := none
    corruption_fault := none
    delay_fault := none
    timing_fault := none
    operation_count_fault := none
    partial_fault :=
      some { probability := 1, factor := factor, operations_mask := 0xFFFFFFFF } }

/-- Test plan with a partial fault whose probability is 0 (never
fires). -/
def partial_never_config (factor : ℚ) : fs_config_t :=
  { enable_fault_injection := true
    error_fault := none
    corruption_fault := none
    delay_fault := none
    timing_fault := none
    operation_count_fault := none
    partial_fault :=
      some { probability := 0, factor := factor, operations_mask := 0xFFFFFFFF } }

/-! Helper lemmas about the disabled master switch and about the
statistics updates of `should_trigger_fault`. -/

/-- A plan with the master switch on and no fault descriptors. -/
def enabled_empty_config : fs_config_t :=
  { enable_fault_injection := true
    error_fault := none
    corruption_fault := none
    delay_fault := none
    timing_fault := none
    operation_count_fault := none
    partial_fault := none }

/-- The per-call inputs of one write request: the probability draws,
the random stream, the caller's buffer and size, the access-check
result and the backend. -/
structure write_call where
  r_err : ℚ
  r_delay : ℚ
  r_part : ℚ
  r_corr1 : ℚ
  r_corr2 : ℚ
  rng : Nat → Nat
  buf : List Nat
  size : Nat
  access_res : Int
  backendWrite : List Nat → Nat → Int

/-- One `fs_fault_write` call on the bundled inputs. -/
def write_outcome_of (config : fs_config_t) (now : Int) (stats : operation_stats_t)
    (c : write_call) : write_outcome :=
  fs_fault_write config stats now c.r_err c.r_delay c.r_part c.r_corr1 c.r_corr2 c.rng
    c.buf c.size c.access_res c.backendWrite

/-- Run a sequence of write calls, threading the statistics; returns
the final statistics and the list of return codes the backend reported
(one entry per call that reached the backend). -/
def writeSeq (config : fs_config_t) (now : Int) (stats : operation_stats_t) :
    List write_call → operation_stats_t × List Int
  | [] => (stats, [])
  | c :: cs =>
    let o := write_outcome_of config now stats c
    let rest := writeSeq config now o.stats cs
    (rest.1, (if o.backend_invoked then [o.ret] else []) ++ rest.2)

/-- Sum of the positive entries of a list of return codes. -/
def posSum : List Int → Nat
  | [] => 0
  | r :: rs => (if 0 < r then r.toNat else 0) + posSum rs

lemma apply_error_fault_disabled (config : fs_config_t) (op : fs_op_type_t) (r : ℚ)
    (h : config.enable_fault_injection = false) : apply_error_fault config op r = none := by
  unfold apply_error_fault
  cases config.error_fault with
  | none => rfl
  | some ef => simp [h]

lemma apply_delay_fault_disabled (config : fs_config_t) (op : fs_op_type_t) (r : ℚ)
    (h : config.enable_fault_injection = false) : apply_delay_fault config op r = false := by
  unfold apply_delay_fault
  cases config.delay_fault with
  | none => rfl
  | some df => simp [h]

lemma apply_partial_fault_disabled (config : fs_config_t) (op : fs_op_type_t)
    (size : Nat) (r : ℚ) (h : config.enable_fault_injection = false) :
    apply_partial_fault config op size r = size := by
  unfold apply_partial_fault
  cases config.partial_fault with
  | none => rfl
  | some pf => simp [h]

lemma check_timing_fault_disabled (config : fs_config_t) (stats : operation_stats_t)
    (now : Int) (op : fs_op_type_t) (h : config.enable_fault_injection = false) :
    check_timing_fault config stats now op = false := by
  unfold check_timing_fault
  cases config.timing_fault with
  | none => rfl
  | some tf => simp [h]

lemma check_operation_count_fault_disabled (config : fs_config_t) (stats : operation_stats_t)
    (op : fs_op_type_t) (h : config.enable_fault_injection = false) :
    check_operation_count_fault config stats op = false := by
  unfold check_operation_count_fault
  cases config.operation_count_fault with
  | none => rfl
  | some cf => simp [h]

lemma should_trigger_fault_disabled (config : fs_config_t) (stats : operation_stats_t)
    (now : Int) (op : fs_op_type_t) (h : config.enable_fault_injection = false) :
    should_trigger_fault config stats now op = (false, stats) := by
  unfold should_trigger_fault
  simp [h]

lemma enable_of_apply_error_fault {config : fs_config_t} {op : fs_op_type_t} {r : ℚ}
    (h : apply_error_fault config op r ≠ none) : config.enable_fault_injection = true := by
  cases hen : config.enable_fault_injection with
  | true => rfl
  | false => exact absurd (apply_error_fault_disabled config op r hen) h

lemma enable_of_check_timing_fault {config : fs_config_t} {stats : operation_stats_t}
    {now : Int} {op : fs_op_type_t} (h : check_timing_fault config stats now op = true) :
    config.enable_fault_injection = true := by
  cases hen : config.enable_fault_injection with
  | true => rfl
  | false => rw [check_timing_fault_disabled config stats now op hen] at h; exact absurd h (by simp)

lemma enable_of_check_operation_count_fault {config : fs_config_t} {stats : operation_stats_t}
    {op : fs_op_type_t} (h : check_operation_count_fault config stats op = true) :
    config.enable_fault_injection = true := by
  cases hen : config.enable_fault_injection with
  | true => rfl
  | false =>
    rw [check_operation_count_fault_disabled config stats op hen] at h; exact absurd h (by simp)

/-- The statistics state produced by `should_trigger_fault` under an
enabled plan: both counters incremented, everything else untouched. -/
lemma should_trigger_fault_stats_eq (config : fs_config_t) (stats : operation_stats_t)
    (now : Int) (op : fs_op_type_t) (hen : config.enable_fault_injection = true) :
    (should_trigger_fault config stats now op).2
      = { stats with
            operation_count := stats.operation_count + 1
            op_counts := Function.update stats.op_counts op (stats.op_counts op + 1) } := by
  unfold should_trigger_fault
  simp only [hen, Bool.not_true, Bool.false_eq_true, if_false]
  split
  · rfl
  · split
    · rfl
    · rfl

/-- The decision of `should_trigger_fault` under an enabled plan: timing
is checked against the incremented statistics, the count fault against
the pre-increment `operation_count`. -/
lemma should_trigger_fault_fst_eq (config : fs_config_t) (stats : operation_stats_t)
    (now : Int) (op : fs_op_type_t) (hen : config.enable_fault_injection = true) :
    (should_trigger_fault config stats now op).1
      = (check_timing_fault config
            { stats with
                operation_count := stats.operation_count + 1
                op_counts := Function.update stats.op_counts op (stats.op_counts op + 1) }
            now op
         || check_operation_count_fault config
            { stats with
                operation_count := stats.operation_count
                op_counts := Function.update stats.op_counts op (stats.op_counts op + 1) }
            op) := by
  unfold should_trigger_fault
  simp only [hen, Bool.not_true, Bool.false_eq_true, if_false]
  split
  · rename_i h; rw [h]; rfl
  · rename_i h
    rw [Bool.not_eq_true] at h
    rw [h, Bool.false_or]
    split
    · rename_i h2; rw [h2]
    · rename_i h2; rw [Bool.not_eq_true] at h2; rw [h2]

/-- All branches of `fs_fault_getattr` carry the statistics produced by
`should_trigger_fault`. -/
lemma fs_fault_getattr_stats (config : fs_config_t) (stats : operation_stats_t) (now : Int)
    (r_err r_delay : ℚ) (backend : Int) :
    (fs_fault_getattr config stats now r_err r_delay backend).stats
      = (should_trigger_fault config stats now FS_OP_GETATTR).2 := by
  unfold fs_fault_getattr
  rcases h : apply_error_fault config FS_OP_GETATTR r_err with _ | code <;>
    rcases hsf : (should_trigger_fault config stats now FS_OP_GETATTR).1 <;>
      simp [h, hsf]

/-- Claim C10: at the degenerate edges of the fault-application
interface, `apply_partial_fault` with `original_size = 0` returns 0
unchanged (it never raises an empty transfer to 1 byte), and
`apply_corruption_fault` with a NULL buffer or with `size = 0` performs
no corruption, leaves the buffer unchanged, and reports that no fault
was applied. -/
theorem degenerate_edges_safe (config : fs_config_t) (op : fs_op_type_t) (r : ℚ)
    (rng : Nat → Nat) (buf : List Nat) (size : Nat) :
    apply_partial_fault config op 0 r = 0 ∧
    apply_corruption_fault config op none size r rng = (none, false) ∧
    apply_corruption_fault config op (some buf) 0 r rng = (some buf, false) := by
  refine ⟨?_, ?_, ?_⟩
  · unfold apply_partial_fault
    cases config.partial_fault with
    | none => rfl
    | some pf => simp
  · unfold apply_corruption_fault
    cases config.corruption_fault with
    | none => rfl
    | some cf => cases config.enable_fault_injection <;> simp
  · unfold apply_corruption_fault
    cases config.corruption_fault with
    | none => rfl
    | some cf => cases config.enable_fault_injection <;> simp

/-- Claim C6: for a transfer with `original_size > 0` and a partial
fault whose factor lies in `[0,1]`, when the fault fires (plan enabled,
mask matches, probability triggers) the adjusted size equals
`max 1 ⌊original_size * factor⌋` and lies in `[1, original_size]`; when
the mask does not match or the probability does not trigger the size is
returned unchanged. -/
theorem partial_fault_bound :
    (∀ (config : fs_config_t) (pf : fault_partial_t) (op : fs_op_type_t) (size : Nat) (r : ℚ),
      0 < size →
      config.partial_fault = some pf →
      0 ≤ pf.factor → pf.factor ≤ 1 →
      config.enable_fault_injection = true →
      config_should_affect_operation pf.operations_mask op = true →
      check_probability pf.probability r = true →
      apply_partial_fault config op size r = max 1 (⌊(size : ℚ) * pf.factor⌋).toNat ∧
      1 ≤ apply_partial_fault config op size r ∧
      apply_partial_fault config op size r ≤ size) ∧
    (∀ (config : fs_config_t) (pf : fault_partial_t) (op : fs_op_type_t) (size : Nat) (r : ℚ),
      config.partial_fault = some pf →
      (config_should_affect_operation pf.operations_mask op = false ∨
        check_probability pf.probability r = false) →
      apply_partial_fault config op size r = size) := by
  constructor
  · intro config pf op size r hsize hpf hf0 hf1 hen haff hprob
    have hsz : ¬size = 0 := Nat.pos_iff_ne_zero.mp hsize
    have heq : apply_partial_fault config op size r
        = (if (⌊(size : ℚ) * pf.factor⌋).toNat = 0 then 1
           else (⌊(size : ℚ) * pf.factor⌋).toNat) := by
      unfold apply_partial_fault
      rw [hpf]
      simp [hen, haff, hprob, hsz]
    have hflr : (⌊(size : ℚ) * pf.factor⌋).toNat ≤ size := by
      have h1 : (size : ℚ) * pf.factor ≤ (size : ℚ) := by
        calc (size : ℚ) * pf.factor ≤ (size : ℚ) * 1 := by
              exact mul_le_mul_of_nonneg_left hf1 (by positivity)
          _ = (size : ℚ) := mul_one _
      have h2 : ⌊(size : ℚ) * pf.factor⌋ ≤ (size : Int) := by
        calc ⌊(size : ℚ) * pf.factor⌋ ≤ ⌊(size : ℚ)⌋ := Int.floor_le_floor h1
          _ = (size : Int) := Int.floor_natCast size
      exact Int.toNat_le.mpr h2
    have hmax : (if (⌊(size : ℚ) * pf.factor⌋).toNat = 0 then 1
        else (⌊(size : ℚ) * pf.factor⌋).toNat) = max 1 (⌊(size : ℚ) * pf.factor⌋).toNat := by
      rcases Nat.eq_zero_or_pos (⌊(size : ℚ) * pf.factor⌋).toNat with h | h
      · simp [h]
      · have : ¬(⌊(size : ℚ) * pf.factor⌋).toNat = 0 := Nat.pos_iff_ne_zero.mp h
        simp [this]
        omega
    refine ⟨heq.trans hmax, ?_, ?_⟩
    · rw [heq, hmax]; exact Nat.le_max_left 1 _
    · rw [heq, hmax]; exact Nat.max_le.mpr ⟨hsize, hflr⟩
  · intro config pf op size r hpf h
    unfold apply_partial_fault
    rw [hpf]
    by_cases hsz : size = 0
    · simp [hsz]
    · rcases h with h | h <;>
        rcases hen : config.enable_fault_injection <;>
          rcases haff : config_should_affect_operation pf.operations_mask op <;>
            simp_all

/-- Witness for `partial_fault_bound`: a 10-byte write under an
always-firing partial fault with factor 1/2 becomes 5 bytes, and under a
never-firing partial fault it stays 10 bytes. -/
theorem partial_fault_bound_witness :
    (0 < 10 ∧ (partial_only_config (1/2)).partial_fault
        = some { probability := 1, factor := 1/2, operations_mask := 0xFFFFFFFF } ∧
      (0 : ℚ) ≤ 1/2 ∧ (1/2 : ℚ) ≤ 1 ∧
      (partial_only_config (1/2)).enable_fault_injection = true ∧
      config_should_affect_operation 0xFFFFFFFF FS_OP_WRITE = true ∧
      check_probability 1 0 = true ∧
      apply_partial_fault (partial_only_config (1/2)) FS_OP_WRITE 10 0
        = max 1 (⌊(10 : ℚ) * (1/2)⌋).toNat ∧
      1 ≤ apply_partial_fault (partial_only_config (1/2)) FS_OP_WRITE 10 0 ∧
      apply_partial_fault (partial_only_config (1/2)) FS_OP_WRITE 10 0 ≤ 10) ∧
    (check_probability 0 0 = false ∧
      apply_partial_fault (partial_never_config (1/2)) FS_OP_WRITE 10 0 = 10) := by
  constructor
  · refine ⟨by decide, rfl, by norm_num, by norm_num, rfl, by decide, by decide, ?_⟩
    exact partial_fault_bound.1 (partial_only_config (1/2))
      { probability := 1, factor := 1/2, operations_mask := 0xFFFFFFFF }
      FS_OP_WRITE 10 0 (by decide) rfl (by norm_num) (by norm_num) rfl (by decide) (by decide)
  · refine ⟨by decide, ?_⟩
    exact partial_fault_bound.2 (partial_never_config (1/2))
      { probability := 0, factor := 1/2, operations_mask := 0xFFFFFFFF }
      FS_OP_WRITE 10 0 rfl (Or.inr (by decide))

/-- The corruption loop never changes the buffer length. -/
lemma corruptLoop_length (rng : Nat → Nat) (size k : Nat) (buffer : List Nat) :
    (corruptLoop rng size k buffer).length = buffer.length := by
  unfold corruptLoop
  generalize List.range k = l
  induction l generalizing buffer with
  | nil => rfl
  | cons i l ih => rw [List.foldl_cons, ih, List.length_set]

/-- A byte at a position never struck by the corruption loop is left
unchanged. -/
lemma corruptLoop_getD_not_struck (rng : Nat → Nat) (size k : Nat) (buffer : List Nat)
    (j : Nat) (h : ∀ i, i < k → rng (2 * i) % size ≠ j) :
    (corruptLoop rng size k buffer).getD j 0 = buffer.getD j 0 := by
  unfold corruptLoop
  induction k with
  | zero => rfl
  | succ k ih =>
    rw [List.range_succ, List.foldl_append, List.foldl_cons, List.foldl_nil]
    have hne : rng (2 * k) % size ≠ j := h k (Nat.lt_succ_self k)
    have hih := ih (fun i hi => h i (Nat.lt_succ_of_lt hi))
    simp only [List.getD] at hih ⊢
    rw [List.get?_set_ne _ _ hne]
    exact hih

/-- Claim C7: when the corruption fault fires on a buffer of length
`L > 0` with percentage `P ∈ [0,100]`, the routine performs exactly `k`
byte-write strikes with `k = ⌊L*P/100⌋` raised to 1 when `P > 0` and the
truncation is 0 and capped at `L`; each strike targets an index in
`[0, L)` (with replacement), the buffer keeps its length, and every
position not struck is unchanged. -/
theorem corruption_bound (config : fs_config_t) (cf : fault_corruption_t)
    (op : fs_op_type_t) (buf : List Nat) (r : ℚ) (rng : Nat → Nat)
    (hcf : config.corruption_fault = some cf)
    (hen : config.enable_fault_injection = true)
    (hlen : 0 < buf.length)
    (hp0 : 0 ≤ cf.percentage) (hp1 : cf.percentage ≤ 100)
    (haff : config_should_affect_operation cf.operations_mask op = true)
    (hprob : check_probability cf.probability r = true) :
    apply_corruption_fault config op (some buf) buf.length r rng
      = (some (corruptLoop rng buf.length (corrupt_bytes_count buf.length cf.percentage) buf),
         true) ∧
    corrupt_bytes_count buf.length cf.percentage
      = min buf.length
          (if (⌊(buf.length : ℚ) * cf.percentage / 100⌋).toNat = 0 ∧ 0 < cf.percentage then 1
           else (⌊(buf.length : ℚ) * cf.percentage / 100⌋).toNat) ∧
    (corruptLoop rng buf.length (corrupt_bytes_count buf.length cf.percentage) buf).length
      = buf.length ∧
    (∀ i, i < corrupt_bytes_count buf.length cf.percentage →
      rng (2 * i) % buf.length < buf.length) ∧
    (∀ j, (∀ i, i < corrupt_bytes_count buf.length cf.percentage →
        rng (2 * i) % buf.length ≠ j) →
      (corruptLoop rng buf.length (corrupt_bytes_count buf.length cf.percentage) buf).getD j 0
        = buf.getD j 0) := by
  refine ⟨?_, ?_, corruptLoop_length rng buf.length _ buf, ?_, ?_⟩
  · unfold apply_corruption_fault
    rw [hcf]
    have hsz : ¬buf.length = 0 := Nat.pos_iff_ne_zero.mp hlen
    have hc1 : ¬cf.percentage < 0 := not_lt.mpr hp0
    have hc2 : ¬(100 : ℚ) < cf.percentage := not_lt.mpr hp1
    simp [hen, hsz, haff, hprob, hc1, hc2]
  · unfold corrupt_bytes_count
    dsimp only
    by_cases hz : (⌊(buf.length : ℚ) * cf.percentage / 100⌋).toNat = 0 ∧ 0 < cf.percentage
    · simp only [if_pos hz]
      split_ifs <;> omega
    · simp only [if_neg hz]
      split_ifs <;> omega
  · intro i hi
    exact Nat.mod_lt _ hlen
  · intro j hj
    exact corruptLoop_getD_not_struck rng buf.length _ buf j hj

/-- Witness for `corruption_bound`: an always-firing 50% corruption
fault on a 4-byte write buffer. -/
theorem corruption_bound_witness :
    ((corruption_only_config 50).corruption_fault
        = some { probability := 1, percentage := 50, silent := true,
                 operations_mask := 0xFFFFFFFF } ∧
      (corruption_only_config 50).enable_fault_injection = true ∧
      0 < ([10, 20, 30, 40] : List Nat).length ∧
      (0 : ℚ) ≤ 50 ∧ (50 : ℚ) ≤ 100 ∧
      config_should_affect_operation 0xFFFFFFFF FS_OP_WRITE = true ∧
      check_probability 1 0 = true) ∧
    (apply_corruption_fault (corruption_only_config 50) FS_OP_WRITE (some [10, 20, 30, 40])
        ([10, 20, 30, 40] : List Nat).length 0 (fun i => i + 1)
      = (some (corruptLoop (fun i => i + 1) ([10, 20, 30, 40] : List Nat).length
            (corrupt_bytes_count ([10, 20, 30, 40] : List Nat).length 50) [10, 20, 30, 40]),
         true) ∧
      corrupt_bytes_count ([10, 20, 30, 40] : List Nat).length 50
        = min ([10, 20, 30, 40] : List Nat).length
            (if (⌊(([10, 20, 30, 40] : List Nat).length : ℚ) * 50 / 100⌋).toNat = 0 ∧
                (0 : ℚ) < 50 then 1
             else (⌊(([10, 20, 30, 40] : List Nat).length : ℚ) * 50 / 100⌋).toNat) ∧
      (corruptLoop (fun i => i + 1) ([10, 20, 30, 40] : List Nat).length
          (corrupt_bytes_count ([10, 20, 30, 40] : List Nat).length 50)
          [10, 20, 30, 40]).length = ([10, 20, 30, 40] : List Nat).length ∧
      (∀ i, i < corrupt_bytes_count ([10, 20, 30, 40] : List Nat).length 50 →
        (fun i => i + 1) (2 * i) % ([10, 20, 30, 40] : List Nat).length
          < ([10, 20, 30, 40] : List Nat).length) ∧
      (∀ j, (∀ i, i < corrupt_bytes_count ([10, 20, 30, 40] : List Nat).length 50 →
          (fun i => i + 1) (2 * i) % ([10, 20, 30, 40] : List Nat).length ≠ j) →
        (corruptLoop (fun i => i + 1) ([10, 20, 30, 40] : List Nat).length
            (corrupt_bytes_count ([10, 20, 30, 40] : List Nat).length 50)
            [10, 20, 30, 40]).getD j 0 = ([10, 20, 30, 40] : List Nat).getD j 0)) := by
  constructor
  · exact ⟨rfl, rfl, by decide, by norm_num, by norm_num, by decide, by decide⟩
  · exact corruption_bound (corruption_only_config 50)
      { probability := 1, percentage := 50, silent := true, operations_mask := 0xFFFFFFFF }
      FS_OP_WRITE [10, 20, 30, 40] 0 (fun i => i + 1) rfl rfl (by decide)
      (by norm_num) (by norm_num) (by decide) (by decide)

/-- Claim C5: on any call where an error, timing or count fault fires,
no delay sleep is performed, the transfer size is not reduced by the
partial fault (the backend is not invoked at all, so no truncated
transfer occurs), and no corruption is applied on that same call.
Stated for the write handler, the read handler and the generic
handler. -/
theorem fault_short_circuit_frame :
    (∀ (config : fs_config_t) (stats : operation_stats_t) (now : Int)
        (r_err r_delay r_part r_corr1 r_corr2 : ℚ) (rng : Nat → Nat)
        (buf : List Nat) (size : Nat) (access_res : Int)
        (backendWrite : List Nat → Nat → Int),
      (apply_error_fault config FS_OP_WRITE r_err ≠ none ∨
        check_timing_fault config stats now FS_OP_WRITE = true ∨
        check_operation_count_fault config stats FS_OP_WRITE = true) →
      (fs_fault_write config stats now r_err r_delay r_part r_corr1 r_corr2 rng buf size
          access_res backendWrite).slept = false ∧
      (fs_fault_write config stats now r_err r_delay r_part r_corr1 r_corr2 rng buf size
          access_res backendWrite).backend_invoked = false ∧
      (fs_fault_write config stats now r_err r_delay r_part r_corr1 r_corr2 rng buf size
          access_res backendWrite).used_size = none ∧
      (fs_fault_write config stats now r_err r_delay r_part r_corr1 r_corr2 rng buf size
          access_res backendWrite).corrupted = false) ∧
    (∀ (config : fs_config_t) (stats : operation_stats_t) (now : Int)
        (r_err r_delay r_part : ℚ) (fi_null : Bool) (access_res : Int)
        (backendRead : Nat → Int) (size : Nat),
      ((should_trigger_fault config stats now FS_OP_READ).1 = true ∨
        apply_error_fault config FS_OP_READ r_err ≠ none) →
      (fs_fault_read config stats now r_err r_delay r_part fi_null access_res backendRead
          size).slept = false ∧
      (fs_fault_read config stats now r_err r_delay r_part fi_null access_res backendRead
          size).backend_invoked = false ∧
      (fs_fault_read config stats now r_err r_delay r_part fi_null access_res backendRead
          size).used_size = none) ∧
    (∀ (config : fs_config_t) (stats : operation_stats_t) (now : Int)
        (r_err r_delay : ℚ) (backend : Int),
      ((should_trigger_fault config stats now FS_OP_GETATTR).1 = true ∨
        apply_error_fault config FS_OP_GETATTR r_err ≠ none) →
      (fs_fault_getattr config stats now r_err r_delay backend).slept = false ∧
      (fs_fault_getattr config stats now r_err r_delay backend).backend_invoked = false) := by
  refine ⟨?_, ?_, ?_⟩
  · intro config stats now r_err r_delay r_part r_corr1 r_corr2 rng buf size access_res
      backendWrite h
    have hen : config.enable_fault_injection = true := by
      rcases h with h | h | h
      · exact enable_of_apply_error_fault h
      · exact enable_of_check_timing_fault h
      · exact enable_of_check_operation_count_fault h
    unfold fs_fault_write
    rcases herr : apply_error_fault config FS_OP_WRITE r_err with _ | code
    · have htc : check_timing_fault config stats now FS_OP_WRITE = true ∨
          check_operation_count_fault config stats FS_OP_WRITE = true := by
        rcases h with h | h | h
        · exact absurd herr h
        · exact Or.inl h
        · exact Or.inr h
      rcases ht : check_timing_fault config stats now FS_OP_WRITE
      · have hc : check_operation_count_fault config stats FS_OP_WRITE = true := by
          rcases htc with htc | htc
          · rw [ht] at htc; exact absurd htc (by simp)
          · exact htc
        simp [hen, herr, ht, hc]
      · simp [hen, herr, ht]
    · simp [hen, herr]
  · intro config stats now r_err r_delay r_part fi_null access_res backendRead size h
    unfold fs_fault_read
    rcases hsf : (should_trigger_fault config stats now FS_OP_READ).1
    · have hne : apply_error_fault config FS_OP_READ r_err ≠ none := by
        rcases h with h | h
        · rw [hsf] at h; exact absurd h (by simp)
        · exact h
      rcases herr : apply_error_fault config FS_OP_READ r_err with _ | code
      · exact absurd herr hne
      · simp [hsf, herr]
    · simp [hsf]
  · intro config stats now r_err r_delay backend h
    unfold fs_fault_getattr
    rcases hsf : (should_trigger_fault config stats now FS_OP_GETATTR).1
    · have hne : apply_error_fault config FS_OP_GETATTR r_err ≠ none := by
        rcases h with h | h
        · rw [hsf] at h; exact absurd h (by simp)
        · exact h
      rcases herr : apply_error_fault config FS_OP_GETATTR r_err with _ | code
      · exact absurd herr hne
      · simp [hsf, herr]
    · simp [hsf]

/-- Witness for `fault_short_circuit_frame`: under
`error_and_timing_config` at `now = 60`, the write error fault and the
generic-handler timing fault both fire and every secondary effect is
suppressed. -/
theorem fault_short_circuit_frame_witness :
    (apply_error_fault error_and_timing_config FS_OP_WRITE 0 ≠ none ∧
      (fs_fault_write error_and_timing_config zero_stats 60 0 0 0 0 0 (fun i => i) [1, 2] 2 0
          (fun _ _ => 2)).slept = false ∧
      (fs_fault_write error_and_timing_config zero_stats 60 0 0 0 0 0 (fun i => i) [1, 2] 2 0
          (fun _ _ => 2)).backend_invoked = false ∧
      (fs_fault_write error_and_timing_config zero_stats 60 0 0 0 0 0 (fun i => i) [1, 2] 2 0
          (fun _ _ => 2)).used_size = none ∧
      (fs_fault_write error_and_timing_config zero_stats 60 0 0 0 0 0 (fun i => i) [1, 2] 2 0
          (fun _ _ => 2)).corrupted = false) ∧
    ((should_trigger_fault error_and_timing_config zero_stats 60 FS_OP_READ).1 = true ∧
      (fs_fault_read error_and_timing_config zero_stats 60 0 0 0 false 0 (fun _ => 2)
          2).slept = false ∧
      (fs_fault_read error_and_timing_config zero_stats 60 0 0 0 false 0 (fun _ => 2)
          2).backend_invoked = false ∧
      (fs_fault_read error_and_timing_config zero_stats 60 0 0 0 false 0 (fun _ => 2)
          2).used_size = none) ∧
    ((should_trigger_fault error_and_timing_config zero_stats 60 FS_OP_GETATTR).1 = true ∧
      (fs_fault_getattr error_and_timing_config zero_stats 60 0 0 7).slept = false ∧
      (fs_fault_getattr error_and_timing_config zero_stats 60 0 0 7).backend_invoked
        = false) := by
  have herr : apply_error_fault error_and_timing_config FS_OP_WRITE 0 ≠ none := by decide
  have hread : (should_trigger_fault error_and_timing_config zero_stats 60 FS_OP_READ).1
      = true := by
    norm_num [should_trigger_fault, check_timing_fault, error_and_timing_config,
      config_should_affect_operation, zero_stats]
  have hget : (should_trigger_fault error_and_timing_config zero_stats 60 FS_OP_GETATTR).1
      = true := by
    norm_num [should_trigger_fault, check_timing_fault, error_and_timing_config,
      config_should_affect_operation, zero_stats]
  refine ⟨⟨herr, ?_⟩, ⟨hread, ?_⟩, ⟨hget, ?_⟩⟩
  · exact fault_short_circuit_frame.1 error_and_timing_config zero_stats 60 0 0 0 0 0
      (fun i => i) [1, 2] 2 0 (fun _ _ => 2) (Or.inl herr)
  · exact fault_short_circuit_frame.2.1 error_and_timing_config zero_stats 60 0 0 0 false 0
      (fun _ => 2) 2 (Or.inl hread)
  · exact fault_short_circuit_frame.2.2 error_and_timing_config zero_stats 60 0 0 7
      (Or.inl hget)

/-- A full mask affects every operation. -/
lemma affect_all (op : fs_op_type_t) : config_should_affect_operation 0xFFFFFFFF op = true := rfl

/-- The plan `count_only_config` has no timing fault. -/
lemma count_only_timing (N : Int) (s : operation_stats_t) (now : Int) (op : fs_op_type_t) :
    check_timing_fault (count_only_config N) s now op = false := rfl

/-- The count fault of `count_only_config` fires exactly when the
observed `operation_count` is a multiple of `N` (for `N > 0`;
`after_bytes = 0` disables the byte branch). -/
lemma count_only_count (N : Int) (s : operation_stats_t) (op : fs_op_type_t) (hN : 0 < N) :
    check_operation_count_fault (count_only_config N) s op
      = decide (s.operation_count % N = 0) := by
  by_cases h : s.operation_count % N = 0
  · simp [check_operation_count_fault, count_only_config, config_should_affect_operation,
      hN, h]
  · simp [check_operation_count_fault, count_only_config, config_should_affect_operation,
      hN, h]

/-- Each `fs_fault_getattr` call under `count_only_config` increments
`operation_count` by one, so after `k` calls it equals `k`. -/
lemma getattr_run_operation_count (N : Int) (now : Int) (backend : Nat → Int) (k : Nat) :
    (getattr_run (count_only_config N) now backend k).operation_count = (k : Int) := by
  induction k with
  | zero => rfl
  | succ k ih =>
    rw [getattr_run, fs_fault_getattr_stats, should_trigger_fault_stats_eq _ _ _ _ rfl]
    show (getattr_run (count_only_config N) now backend k).operation_count + 1 = _
    rw [ih]
    push_cast
    ring

/-- Under `count_only_config`, `should_trigger_fault` fires exactly when
the pre-increment `operation_count` is a multiple of `N`. -/
lemma count_only_decision (N : Int) (hN : 0 < N) (k : Nat) (now : Int) (backend : Nat → Int) :
    (should_trigger_fault (count_only_config N) (getattr_run (count_only_config N) now backend k)
        now FS_OP_GETATTR).1
      = decide ((getattr_run (count_only_config N) now backend k).operation_count % N = 0) := by
  rw [should_trigger_fault_fst_eq _ _ _ _ rfl, count_only_timing,
    count_only_count _ _ _ hN]
  simp

/-- When `should_trigger_fault` fires, the generic handler returns
`-EIO_code`. -/
lemma fs_fault_getattr_ret_of_trigger (config : fs_config_t) (stats : operation_stats_t)
    (now : Int) (r_err r_delay : ℚ) (backend : Int)
    (h : (should_trigger_fault config stats now FS_OP_GETATTR).1 = true) :
    (fs_fault_getattr config stats now r_err r_delay backend).ret = -EIO_code := by
  unfold fs_fault_getattr
  simp [h]

/-- When neither the timing/count decision nor the error fault fires,
the generic handler returns the backend result. -/
lemma fs_fault_getattr_ret_of_pass (config : fs_config_t) (stats : operation_stats_t)
    (now : Int) (r_err r_delay : ℚ) (backend : Int)
    (h : (should_trigger_fault config stats now FS_OP_GETATTR).1 = false)
    (herr : apply_error_fault config FS_OP_GETATTR r_err = none) :
    (fs_fault_getattr config stats now r_err r_delay backend).ret = backend := by
  unfold fs_fault_getattr
  simp [h, herr]

/-- Unfolding equation for `getattr_call_ret`. -/
lemma getattr_call_ret_eq (config : fs_config_t) (now : Int) (backend : Nat → Int) (k : Nat) :
    getattr_call_ret config now backend k
      = (fs_fault_getattr config (getattr_run config now backend (k - 1)) now 0 0
          (backend (k - 1))).ret := rfl

/-- Claim C1, corrected.  The count check runs against the
pre-increment counter, so under `count_only_config N` the calls that
fail with `-EIO_code` are those whose 1-based index `k` satisfies
`(k - 1) % N = 0` (calls 1, N+1, 2N+1, ...), not the positive multiples
of `N`; every other call returns the backend's result. -/
theorem count_fault_periodicity_corrected (N : Int) (hN : 0 < N) (k : Nat) (hk : 1 ≤ k)
    (now : Int) (backend : Nat → Int) :
    getattr_call_ret (count_only_config N) now backend k
      = if ((k : Int) - 1) % N = 0 then -EIO_code else backend (k - 1) := by
  rw [getattr_call_ret_eq]
  have hcount : (getattr_run (count_only_config N) now backend (k - 1)).operation_count
      = (k : Int) - 1 := by
    rw [getattr_run_operation_count]
    omega
  have herr : apply_error_fault (count_only_config N) FS_OP_GETATTR 0 = none := rfl
  have hdec := count_only_decision N hN (k - 1) now backend
  rw [hcount] at hdec
  by_cases hmod : ((k : Int) - 1) % N = 0
  · rw [if_pos hmod]
    refine fs_fault_getattr_ret_of_trigger _ _ _ _ _ _ ?_
    rw [hdec]
    simp [hmod]
  · rw [if_neg hmod]
    refine fs_fault_getattr_ret_of_pass _ _ _ _ _ _ ?_ herr
    rw [hdec]
    simp [hmod]

/-- Counterexample to claim C1 as stated: under `count_only_config 3`
(period `N = 3`, `after_bytes = 0`, full mask, everything else
disabled), the 1st call already fails with `-EIO_code` although 1 is not a
positive multiple of 3, and the 3rd call succeeds although 3 is. -/
theorem count_fault_periodicity_cex :
    getattr_call_ret (count_only_config 3) 0 (fun _ => 7) 1 = -EIO_code ∧
    ¬(3 ∣ 1) ∧
    getattr_call_ret (count_only_config 3) 0 (fun _ => 7) 3 = 7 ∧
    (3 ∣ 3) := by decide

/-- Witness for `count_fault_periodicity_corrected` at `N = 3`,
`k = 4`. -/
theorem count_fault_periodicity_corrected_witness :
    (0 : Int) < 3 ∧ 1 ≤ 4 ∧
    getattr_call_ret (count_only_config 3) 0 (fun _ => 7) 4
      = if ((4 : Int) - 1) % 3 = 0 then -EIO_code else 7 := by
  refine ⟨by decide, by decide, ?_⟩
  exact count_fault_periodicity_corrected 3 (by decide) 4 (by decide) 0 (fun _ => 7)

/-- Claim C2, corrected.  In the write handler the error fault has
strict precedence: when it fires the call returns its configured errno
and the backend is not invoked.  In every other handler the
timing/count decision is tested FIRST, short-circuiting the `||` before
the error fault is even drawn, so when it fires the call returns `-EIO_code`
regardless of the error fault; the error fault firing alone returns its
configured errno.  In all cases the backend is not invoked. -/
theorem fault_precedence_corrected :
    (∀ (config : fs_config_t) (stats : operation_stats_t) (now : Int)
        (r_err r_delay r_part r_corr1 r_corr2 : ℚ) (rng : Nat → Nat)
        (buf : List Nat) (size : Nat) (access_res : Int)
        (backendWrite : List Nat → Nat → Int) (code : Int),
      apply_error_fault config FS_OP_WRITE r_err = some code →
      (fs_fault_write config stats now r_err r_delay r_part r_corr1 r_corr2 rng buf size
          access_res backendWrite).ret = code ∧
      (fs_fault_write config stats now r_err r_delay r_part r_corr1 r_corr2 rng buf size
          access_res backendWrite).backend_invoked = false) ∧
    (∀ (config : fs_config_t) (stats : operation_stats_t) (now : Int)
        (r_err r_delay : ℚ) (backend : Int),
      (should_trigger_fault config stats now FS_OP_GETATTR).1 = true →
      (fs_fault_getattr config stats now r_err r_delay backend).ret = -EIO_code ∧
      (fs_fault_getattr config stats now r_err r_delay backend).backend_invoked = false) ∧
    (∀ (config : fs_config_t) (stats : operation_stats_t) (now : Int)
        (r_err r_delay : ℚ) (backend : Int) (code : Int),
      (should_trigger_fault config stats now FS_OP_GETATTR).1 = false →
      apply_error_fault config FS_OP_GETATTR r_err = some code →
      (fs_fault_getattr config stats now r_err r_delay backend).ret = code ∧
      (fs_fault_getattr config stats now r_err r_delay backend).backend_invoked = false) := by
  refine ⟨?_, ?_, ?_⟩
  · intro config stats now r_err r_delay r_part r_corr1 r_corr2 rng buf size access_res
      backendWrite code h
    have hen : config.enable_fault_injection = true :=
      @enable_of_apply_error_fault config FS_OP_WRITE r_err (by simp [h])
    unfold fs_fault_write
    simp [hen, h]
  · intro config stats now r_err r_delay backend h
    unfold fs_fault_getattr
    simp [h]
  · intro config stats now r_err r_delay backend code h1 h2
    unfold fs_fault_getattr
    simp [h1, h2]

/-- Counterexample to claim C2 as stated: under
`error_and_timing_config` at `now = 60` both the error fault (errno
`-2`, probability 1) and the timing fault would fire on a getattr, yet
the call returns `-EIO_code`, not the error fault's configured errno. -/
theorem fault_precedence_cex :
    apply_error_fault error_and_timing_config FS_OP_GETATTR 0 = some (-2) ∧
    check_timing_fault error_and_timing_config zero_stats 60 FS_OP_GETATTR = true ∧
    (fs_fault_getattr error_and_timing_config zero_stats 60 0 0 7).ret = -EIO_code ∧
    (-EIO_code : Int) ≠ -2 := by
  refine ⟨by decide, ?_, ?_, by decide⟩
  · norm_num [check_timing_fault, error_and_timing_config, config_should_affect_operation,
      zero_stats]
  · norm_num [fs_fault_getattr, should_trigger_fault, check_timing_fault,
      error_and_timing_config, config_should_affect_operation, zero_stats, EIO_code]

/-- Witness for `fault_precedence_corrected`: the write handler returns
the configured errno `-2`; the generic handler returns `-EIO_code` once the
timing fault has fired (`now = 60`) and the configured errno `-2`
before the threshold (`now = 0`). -/
theorem fault_precedence_corrected_witness :
    (apply_error_fault error_and_timing_config FS_OP_WRITE 0 = some (-2) ∧
      (fs_fault_write error_and_timing_config zero_stats 60 0 0 0 0 0 (fun i => i) [1, 2] 2 0
          (fun _ _ => 2)).ret = -2 ∧
      (fs_fault_write error_and_timing_config zero_stats 60 0 0 0 0 0 (fun i => i) [1, 2] 2 0
          (fun _ _ => 2)).backend_invoked = false) ∧
    ((should_trigger_fault error_and_timing_config zero_stats 60 FS_OP_GETATTR).1 = true ∧
      (fs_fault_getattr error_and_timing_config zero_stats 60 0 0 7).ret = -EIO_code ∧
      (fs_fault_getattr error_and_timing_config zero_stats 60 0 0 7).backend_invoked
        = false) ∧
    ((should_trigger_fault error_and_timing_config zero_stats 0 FS_OP_GETATTR).1 = false ∧
      apply_error_fault error_and_timing_config FS_OP_GETATTR 0 = some (-2) ∧
      (fs_fault_getattr error_and_timing_config zero_stats 0 0 0 7).ret = -2 ∧
      (fs_fault_getattr error_and_timing_config zero_stats 0 0 0 7).backend_invoked
        = false) := by
  have herr_w : apply_error_fault error_and_timing_config FS_OP_WRITE 0 = some (-2) := by
    decide
  have herr_g : apply_error_fault error_and_timing_config FS_OP_GETATTR 0 = some (-2) := by
    decide
  have hfired : (should_trigger_fault error_and_timing_config zero_stats 60 FS_OP_GETATTR).1
      = true := by
    norm_num [should_trigger_fault, check_timing_fault, error_and_timing_config,
      config_should_affect_operation, zero_stats]
  have hquiet : (should_trigger_fault error_and_timing_config zero_stats 0 FS_OP_GETATTR).1
      = false := by
    norm_num [should_trigger_fault, check_timing_fault, check_operation_count_fault,
      error_and_timing_config, config_should_affect_operation, zero_stats]
  refine ⟨⟨herr_w, ?_⟩, ⟨hfired, ?_⟩, ⟨hquiet, herr_g, ?_⟩⟩
  · exact fault_precedence_corrected.1 error_and_timing_config zero_stats 60 0 0 0 0 0
      (fun i => i) [1, 2] 2 0 (fun _ _ => 2) (-2) herr_w
  · exact fault_precedence_corrected.2.1 error_and_timing_config zero_stats 60 0 0 7 hfired
  · exact fault_precedence_corrected.2.2 error_and_timing_config zero_stats 0 0 0 7 (-2)
      hquiet herr_g

/-- Claim C3, corrected.  With `enable_fault_injection = false` every
handler returns the backend's result with unmodified buffers and sizes,
performs no sleep, and leaves `op_count`, `per_op_count` and
`bytes_written` untouched — but the READ handler still adds each
positive backend result to `bytes_read`, because its statistics update
runs regardless of the master switch. -/
theorem disabled_master_identity_corrected :
    (∀ (config : fs_config_t) (stats : operation_stats_t) (now : Int)
        (r_err r_delay : ℚ) (backend : Int),
      config.enable_fault_injection = false →
      fs_fault_getattr config stats now r_err r_delay backend
        = { ret := backend, slept := false, backend_invoked := true, stats := stats }) ∧
    (∀ (config : fs_config_t) (stats : operation_stats_t) (now : Int)
        (r_err r_delay r_part : ℚ) (fi_null : Bool) (access_res : Int)
        (backendRead : Nat → Int) (size : Nat),
      config.enable_fault_injection = false →
      access_res = 0 →
      fs_fault_read config stats now r_err r_delay r_part fi_null access_res backendRead size
        = { ret := backendRead size, slept := false, backend_invoked := true,
            used_size := some size,
            stats :=
              if 0 < backendRead size then
                { stats with bytes_read := stats.bytes_read + (backendRead size).toNat }
              else stats }) ∧
    (∀ (config : fs_config_t) (stats : operation_stats_t) (now : Int)
        (r_err r_delay r_part r_corr1 r_corr2 : ℚ) (rng : Nat → Nat)
        (buf : List Nat) (size : Nat) (access_res : Int)
        (backendWrite : List Nat → Nat → Int),
      config.enable_fault_injection = false →
      fs_fault_write config stats now r_err r_delay r_part r_corr1 r_corr2 rng buf size
          access_res backendWrite
        = { ret := backendWrite buf size, slept := false, backend_invoked := true,
            used_size := some size, corrupted := false, stats := stats }) := by
  refine ⟨?_, ?_, ?_⟩
  · intro config stats now r_err r_delay backend h
    unfold fs_fault_getattr
    simp [should_trigger_fault_disabled config stats now FS_OP_GETATTR h,
      apply_error_fault_disabled config FS_OP_GETATTR r_err h,
      apply_delay_fault_disabled config FS_OP_GETATTR r_delay h]
  · intro config stats now r_err r_delay r_part fi_null access_res backendRead size h ha
    unfold fs_fault_read
    simp [should_trigger_fault_disabled config stats now FS_OP_READ h,
      apply_error_fault_disabled config FS_OP_READ r_err h,
      apply_delay_fault_disabled config FS_OP_READ r_delay h,
      apply_partial_fault_disabled config FS_OP_READ size r_part h,
      ha, update_operation_stats]
  · intro config stats now r_err r_delay r_part r_corr1 r_corr2 rng buf size access_res
      backendWrite h
    unfold fs_fault_write
    simp [h]

/-- Counterexample to claim C3 as stated: with the master switch off, a
READ whose backend reports 4 bytes still increments the `bytes_read`
ledger counter. -/
theorem disabled_master_identity_cex :
    disabled_config.enable_fault_injection = false ∧
    (fs_fault_read disabled_config zero_stats 0 0 0 0 false 0 (fun _ => 4) 4).stats.bytes_read
      ≠ zero_stats.bytes_read := by decide

/-- Witness for `disabled_master_identity_corrected` under
`disabled_config`. -/
theorem disabled_master_identity_corrected_witness :
    (disabled_config.enable_fault_injection = false ∧
      fs_fault_getattr disabled_config zero_stats 0 0 0 7
        = { ret := 7, slept := false, backend_invoked := true, stats := zero_stats }) ∧
    ((0 : Int) = 0 ∧
      fs_fault_read disabled_config zero_stats 0 0 0 0 false 0 (fun _ => 4) 4
        = { ret := 4, slept := false, backend_invoked := true, used_size := some 4,
            stats :=
              if 0 < (4 : Int) then
                { zero_stats with bytes_read := zero_stats.bytes_read + (4 : Int).toNat }
              else zero_stats }) ∧
    (fs_fault_write disabled_config zero_stats 0 0 0 0 0 0 (fun i => i) [1, 2, 3, 4] 4 0
        (fun _ _ => 4)
      = { ret := 4, slept := false, backend_invoked := true, used_size := some 4,
          corrupted := false, stats := zero_stats }) := by
  refine ⟨⟨rfl, ?_⟩, ⟨rfl, ?_⟩, ?_⟩
  · exact disabled_master_identity_corrected.1 disabled_config zero_stats 0 0 0 7 rfl
  · exact disabled_master_identity_corrected.2.1 disabled_config zero_stats 0 0 0 0 false 0
      (fun _ => 4) 4 rfl rfl
  · exact disabled_master_identity_corrected.2.2 disabled_config zero_stats 0 0 0 0 0 0
      (fun i => i) [1, 2, 3, 4] 4 0 (fun _ _ => 4) rfl

/-- The function `fs_fault_write` can change the statistics only in
`bytes_written`: every other ledger field is untouched on every
path. -/
lemma fs_fault_write_stats_frame (config : fs_config_t) (stats : operation_stats_t)
    (now : Int) (r_err r_delay r_part r_corr1 r_corr2 : ℚ) (rng : Nat → Nat)
    (buf : List Nat) (size : Nat) (access_res : Int)
    (backendWrite : List Nat → Nat → Int) :
    (fs_fault_write config stats now r_err r_delay r_part r_corr1 r_corr2 rng buf size
        access_res backendWrite).stats.operation_count = stats.operation_count ∧
    (fs_fault_write config stats now r_err r_delay r_part r_corr1 r_corr2 rng buf size
        access_res backendWrite).stats.op_counts = stats.op_counts ∧
    (fs_fault_write config stats now r_err r_delay r_part r_corr1 r_corr2 rng buf size
        access_res backendWrite).stats.bytes_read = stats.bytes_read ∧
    (fs_fault_write config stats now r_err r_delay r_part r_corr1 r_corr2 rng buf size
        access_res backendWrite).stats.start_time = stats.start_time := by
  unfold fs_fault_write
  dsimp only
  repeat' split
  all_goals simp [update_operation_stats]

/-- Claim C4, corrected.  Under an enabled plan, `should_trigger_fault`
(the pre-phase of every handler except WRITE) increments `op_count` and
`per_op_count[op]` exactly once per call, but the count-based condition
is evaluated against the PRE-increment `operation_count` (the increment
is temporarily undone for the check); the WRITE handler never calls
`should_trigger_fault` and increments neither counter. -/
theorem observe_call_corrected :
    (∀ (config : fs_config_t) (stats : operation_stats_t) (now : Int) (op : fs_op_type_t),
      config.enable_fault_injection = true →
      (should_trigger_fault config stats now op).2.operation_count
          = stats.operation_count + 1 ∧
      (should_trigger_fault config stats now op).2.op_counts op = stats.op_counts op + 1 ∧
      (should_trigger_fault config stats now op).1
        = (check_timing_fault config (should_trigger_fault config stats now op).2 now op
           || check_operation_count_fault config
                { (should_trigger_fault config stats now op).2 with
                    operation_count := stats.operation_count } op)) ∧
    (∀ (config : fs_config_t) (stats : operation_stats_t) (now : Int)
        (r_err r_delay r_part r_corr1 r_corr2 : ℚ) (rng : Nat → Nat)
        (buf : List Nat) (size : Nat) (access_res : Int)
        (backendWrite : List Nat → Nat → Int),
      (fs_fault_write config stats now r_err r_delay r_part r_corr1 r_corr2 rng buf size
          access_res backendWrite).stats.operation_count = stats.operation_count ∧
      (fs_fault_write config stats now r_err r_delay r_part r_corr1 r_corr2 rng buf size
          access_res backendWrite).stats.op_counts = stats.op_counts) := by
  constructor
  · intro config stats now op hen
    rw [should_trigger_fault_stats_eq config stats now op hen,
      should_trigger_fault_fst_eq config stats now op hen]
    refine ⟨rfl, ?_, rfl⟩
    simp [Function.update_same]
  · intro config stats now r_err r_delay r_part r_corr1 r_corr2 rng buf size access_res
      backendWrite
    have h := fs_fault_write_stats_frame config stats now r_err r_delay r_part r_corr1
        r_corr2 rng buf size access_res backendWrite
    exact ⟨h.1, h.2.1⟩

/-- Counterexample to claim C4 as stated: under an enabled plan, a
WRITE call leaves `op_count` at 0 — the write handler performs no
increment at all. -/
theorem observe_call_cex :
    enabled_empty_config.enable_fault_injection = true ∧
    (fs_fault_write enabled_empty_config zero_stats 0 0 0 0 0 0 (fun i => i) [1, 2, 3] 3 0
        (fun _ _ => 3)).stats.operation_count = zero_stats.operation_count := by decide

/-- Witness for `observe_call_corrected`: one getattr pre-phase under
the empty enabled plan increments both counters. -/
theorem observe_call_corrected_witness :
    (enabled_empty_config.enable_fault_injection = true ∧
      (should_trigger_fault enabled_empty_config zero_stats 0 FS_OP_GETATTR).2.operation_count
          = zero_stats.operation_count + 1 ∧
      (should_trigger_fault enabled_empty_config zero_stats 0 FS_OP_GETATTR).2.op_counts
          FS_OP_GETATTR = zero_stats.op_counts FS_OP_GETATTR + 1 ∧
      (should_trigger_fault enabled_empty_config zero_stats 0 FS_OP_GETATTR).1
        = (check_timing_fault enabled_empty_config
              (should_trigger_fault enabled_empty_config zero_stats 0 FS_OP_GETATTR).2 0
              FS_OP_GETATTR
           || check_operation_count_fault enabled_empty_config
                { (should_trigger_fault enabled_empty_config zero_stats 0 FS_OP_GETATTR).2 with
                    operation_count := zero_stats.operation_count } FS_OP_GETATTR)) ∧
    ((fs_fault_write enabled_empty_config zero_stats 0 0 0 0 0 0 (fun i => i) [1, 2, 3] 3 0
        (fun _ _ => 3)).stats.operation_count = zero_stats.operation_count ∧
      (fs_fault_write enabled_empty_config zero_stats 0 0 0 0 0 0 (fun i => i) [1, 2, 3] 3 0
        (fun _ _ => 3)).stats.op_counts = zero_stats.op_counts) := by
  constructor
  · exact ⟨rfl, observe_call_corrected.1 enabled_empty_config zero_stats 0 FS_OP_GETATTR rfl⟩
  · exact observe_call_corrected.2 enabled_empty_config zero_stats 0 0 0 0 0 0 (fun i => i)
      [1, 2, 3] 3 0 (fun _ _ => 3)

/-- The function `check_timing_fault` reads the statistics only through
`start_time`. -/
lemma check_timing_fault_congr (config : fs_config_t) (s1 s2 : operation_stats_t)
    (now : Int) (op : fs_op_type_t) (h : s1.start_time = s2.start_time) :
    check_timing_fault config s1 now op = check_timing_fault config s2 now op := by
  unfold check_timing_fault
  cases config.timing_fault with
  | none => rfl
  | some tf => rw [h]

/-- Claim C8, corrected.  With the plan enabled, a timing fault that is
enabled, whose mask matches, and whose `after_minutes` is POSITIVE:
once the elapsed minutes reach the threshold at some time `now`, the
fault fires at every `later ≥ now`, the pre-phase decision is `true`,
and the generic handler fails with `-EIO_code`.  (The positivity requirement
is forced by the code: `check_timing_fault` never fires when
`after_minutes ≤ 0`, even though a 0-minute threshold is trivially
reached.) -/
theorem timing_monotonicity_corrected (config : fs_config_t) (tf : fault_timing_t)
    (stats : operation_stats_t) (now later : Int) (op : fs_op_type_t)
    (r_err r_delay : ℚ) (backend : Int)
    (htf : config.timing_fault = some tf)
    (hen : config.enable_fault_injection = true)
    (henab : tf.enabled = true)
    (haff : config_should_affect_operation tf.operations_mask op = true)
    (hpos : 0 < tf.after_minutes)
    (hreach : (tf.after_minutes : ℚ) ≤ ((now - stats.start_time : Int) : ℚ) / 60)
    (hlater : now ≤ later) :
    check_timing_fault config stats later op = true ∧
    (should_trigger_fault config stats later op).1 = true ∧
    (config_should_affect_operation tf.operations_mask FS_OP_GETATTR = true →
      (fs_fault_getattr config stats later r_err r_delay backend).ret = -EIO_code) := by
  have hr2 : (tf.after_minutes : ℚ) ≤ ((later - stats.start_time : Int) : ℚ) / 60 := by
    refine le_trans hreach ?_
    have h1 : ((now - stats.start_time : Int) : ℚ) ≤ ((later - stats.start_time : Int) : ℚ) := by
      exact_mod_cast sub_le_sub_right hlater stats.start_time
    exact div_le_div_of_nonneg_right h1 (by norm_num)
  have key : ∀ o : fs_op_type_t, config_should_affect_operation tf.operations_mask o = true →
      ∀ s : operation_stats_t, s.start_time = stats.start_time →
      check_timing_fault config s later o = true := by
    intro o ho s hs
    unfold check_timing_fault
    rw [htf]
    have hr3 : ¬(((later - s.start_time : Int) : ℚ) / 60 < (tf.after_minutes : ℚ)) := by
      rw [hs]
      exact not_lt.mpr hr2
    have c1 : (!config.enable_fault_injection || !tf.enabled) = false := by
      rw [hen, henab]; rfl
    have c2 : (!config_should_affect_operation tf.operations_mask o) = false := by
      rw [ho]; rfl
    simp only [c1, c2, Bool.false_eq_true, if_false, if_pos hpos, if_neg hr3]
  refine ⟨key op haff stats rfl, ?_, ?_⟩
  · rw [should_trigger_fault_fst_eq config stats later op hen,
      key op haff
        { stats with
            operation_count := stats.operation_count + 1
            op_counts := Function.update stats.op_counts op (stats.op_counts op + 1) }
        rfl,
      Bool.true_or]
  · intro haffg
    refine fs_fault_getattr_ret_of_trigger _ _ _ _ _ _ ?_
    rw [should_trigger_fault_fst_eq config stats later FS_OP_GETATTR hen,
      key FS_OP_GETATTR haffg
        { stats with
            operation_count := stats.operation_count + 1
            op_counts := Function.update stats.op_counts FS_OP_GETATTR
              (stats.op_counts FS_OP_GETATTR + 1) }
        rfl,
      Bool.true_or]

/-- Counterexample to claim C8 as stated: under `timing_zero_config`
the threshold `after_minutes = 0` is already reached at process start
(0 elapsed minutes ≥ 0), yet a matching getattr still returns the
backend result, not `-EIO_code` — the code never fires a timing fault whose
threshold is not positive. -/
theorem timing_monotonicity_cex :
    timing_zero_config.enable_fault_injection = true ∧
    timing_zero_config.timing_fault
      = some { enabled := true, after_minutes := 0, operations_mask := 0xFFFFFFFF } ∧
    ((0 : Int) : ℚ) ≤ ((0 - zero_stats.start_time : Int) : ℚ) / 60 ∧
    (fs_fault_getattr timing_zero_config zero_stats 0 0 0 7).ret = 7 ∧
    (7 : Int) ≠ -EIO_code := by
  refine ⟨rfl, rfl, by norm_num [zero_stats], by decide, by decide⟩

/-- Witness for `timing_monotonicity_corrected`: threshold 1 minute,
reached at `now = 60` seconds, still firing at `later = 120`. -/
theorem timing_monotonicity_corrected_witness :
    (error_and_timing_config.timing_fault
        = some { enabled := true, after_minutes := 1, operations_mask := 0xFFFFFFFF } ∧
      error_and_timing_config.enable_fault_injection = true ∧
      (0 : Int) < 1 ∧
      config_should_affect_operation 0xFFFFFFFF FS_OP_GETATTR = true ∧
      ((1 : Int) : ℚ) ≤ ((60 - zero_stats.start_time : Int) : ℚ) / 60 ∧
      (60 : Int) ≤ 120) ∧
    (check_timing_fault error_and_timing_config zero_stats 120 FS_OP_GETATTR = true ∧
      (should_trigger_fault error_and_timing_config zero_stats 120 FS_OP_GETATTR).1 = true ∧
      (config_should_affect_operation 0xFFFFFFFF FS_OP_GETATTR = true →
        (fs_fault_getattr error_and_timing_config zero_stats 120 0 0 7).ret = -EIO_code)) := by
  constructor
  · exact ⟨rfl, rfl, by decide, by decide, by norm_num [zero_stats], by decide⟩
  · exact timing_monotonicity_corrected error_and_timing_config
      { enabled := true, after_minutes := 1, operations_mask := 0xFFFFFFFF }
      zero_stats 60 120 FS_OP_GETATTR 0 0 7 rfl rfl rfl (by decide) (by decide)
      (by norm_num [zero_stats]) (by decide)

lemma posSum_append (xs ys : List Int) : posSum (xs ++ ys) = posSum xs + posSum ys := by
  induction xs with
  | nil => simp [posSum]
  | cons x xs ih => simp [posSum, ih, Nat.add_assoc]

/-- Unfolding equation for `writeSeq` on a non-empty call list. -/
lemma writeSeq_cons (config : fs_config_t) (now : Int) (stats : operation_stats_t)
    (c : write_call) (cs : List write_call) :
    writeSeq config now stats (c :: cs)
      = ((writeSeq config now (write_outcome_of config now stats c).stats cs).1,
         (if (write_outcome_of config now stats c).backend_invoked
          then [(write_outcome_of config now stats c).ret] else [])
           ++ (writeSeq config now (write_outcome_of config now stats c).stats cs).2) := rfl

/-- One enabled write call adds to `bytes_written` exactly the positive
part of the backend's return code (nothing when the backend was not
reached). -/
lemma fs_fault_write_bytes_written (config : fs_config_t) (stats : operation_stats_t)
    (now : Int) (c : write_call) (hen : config.enable_fault_injection = true) :
    (write_outcome_of config now stats c).stats.bytes_written
      = stats.bytes_written +
        (if (write_outcome_of config now stats c).backend_invoked = true ∧
            0 < (write_outcome_of config now stats c).ret
         then (write_outcome_of config now stats c).ret.toNat else 0) := by
  unfold write_outcome_of fs_fault_write
  dsimp only
  simp only [hen, Bool.not_true, Bool.false_eq_true, if_false]
  repeat' split
  all_goals simp_all [update_operation_stats]

/-- The function `should_trigger_fault` never changes the byte counters. -/
lemma should_trigger_fault_bytes (config : fs_config_t) (stats : operation_stats_t)
    (now : Int) (op : fs_op_type_t) :
    (should_trigger_fault config stats now op).2.bytes_read = stats.bytes_read ∧
    (should_trigger_fault config stats now op).2.bytes_written = stats.bytes_written := by
  unfold should_trigger_fault
  dsimp only
  repeat' split
  all_goals exact ⟨rfl, rfl⟩

/-- Claim C9, corrected (the accumulation discipline requires the
enabled write path; a disabled-master write skips the update, see the
counterexample).  Over any sequence of enabled write calls,
`bytes_written` grows by exactly the sum of the positive return codes
the backend reported — not the sizes the caller requested; and the read
handler likewise adds to `bytes_read` exactly the positive part of the
backend's return code, never touching `bytes_written`. -/
theorem bytes_counter_backend_sum :
    (∀ (config : fs_config_t) (now : Int) (calls : List write_call)
        (stats : operation_stats_t),
      config.enable_fault_injection = true →
      (writeSeq config now stats calls).1.bytes_written
        = stats.bytes_written + posSum (writeSeq config now stats calls).2) ∧
    (∀ (config : fs_config_t) (stats : operation_stats_t) (now : Int)
        (r_err r_delay r_part : ℚ) (fi_null : Bool) (access_res : Int)
        (backendRead : Nat → Int) (size : Nat),
      (fs_fault_read config stats now r_err r_delay r_part fi_null access_res backendRead
          size).stats.bytes_read
        = stats.bytes_read +
          (if (fs_fault_read config stats now r_err r_delay r_part fi_null access_res
                backendRead size).backend_invoked = true ∧
              0 < (fs_fault_read config stats now r_err r_delay r_part fi_null access_res
                backendRead size).ret
           then (fs_fault_read config stats now r_err r_delay r_part fi_null access_res
                backendRead size).ret.toNat else 0) ∧
      (fs_fault_read config stats now r_err r_delay r_part fi_null access_res backendRead
          size).stats.bytes_written = stats.bytes_written) := by
  constructor
  · intro config now calls
    induction calls with
    | nil => intro stats hen; simp [writeSeq, posSum]
    | cons c cs ih =>
      intro stats hen
      have hcall := fs_fault_write_bytes_written config stats now c hen
      have hrest := ih (write_outcome_of config now stats c).stats hen
      rw [writeSeq_cons]
      dsimp only
      rw [hrest, hcall, posSum_append]
      rcases hinv : (write_outcome_of config now stats c).backend_invoked
      · simp [hinv, posSum]
      · by_cases hret : 0 < (write_outcome_of config now stats c).ret
        · simp [hinv, hret, posSum]
          omega
        · simp [hinv, hret, posSum]
  · intro config stats now r_err r_delay r_part fi_null access_res backendRead size
    have hb := should_trigger_fault_bytes config stats now FS_OP_READ
    unfold fs_fault_read
    dsimp only
    repeat' split
    all_goals simp_all [update_operation_stats]

/-- Counterexample to claim C9 as stated: with the master switch off, a
write that reaches the backend and reports 4 bytes leaves
`bytes_written` at 0 — the sum of the backend's positive return codes
is 4, not 0. -/
theorem bytes_counter_backend_sum_cex :
    disabled_config.enable_fault_injection = false ∧
    (fs_fault_write disabled_config zero_stats 0 0 0 0 0 0 (fun i => i) [1, 2, 3, 4] 4 0
        (fun _ _ => 4)).backend_invoked = true ∧
    (fs_fault_write disabled_config zero_stats 0 0 0 0 0 0 (fun i => i) [1, 2, 3, 4] 4 0
        (fun _ _ => 4)).ret = 4 ∧
    (fs_fault_write disabled_config zero_stats 0 0 0 0 0 0 (fun i => i) [1, 2, 3, 4] 4 0
        (fun _ _ => 4)).stats.bytes_written = 0 := by decide

/-- Witness for `bytes_counter_backend_sum`: two enabled writes whose
backends report 4 and -1; `bytes_written` grows by 4, and one disabled
read accumulates its backend result into `bytes_read`. -/
theorem bytes_counter_backend_sum_witness :
    (enabled_empty_config.enable_fault_injection = true ∧
      (writeSeq enabled_empty_config 0 zero_stats
          [{ r_err := 0, r_delay := 0, r_part := 0, r_corr1 := 0, r_corr2 := 0,
             rng := fun i => i, buf := [1, 2, 3, 4], size := 4, access_res := 0,
             backendWrite := fun _ _ => 4 },
           { r_err := 0, r_delay := 0, r_part := 0, r_corr1 := 0, r_corr2 := 0,
             rng := fun i => i, buf := [5, 6], size := 2, access_res := 0,
             backendWrite := fun _ _ => -1 }]).1.bytes_written
        = zero_stats.bytes_written +
          posSum (writeSeq enabled_empty_config 0 zero_stats
            [{ r_err := 0, r_delay := 0, r_part := 0, r_corr1 := 0, r_corr2 := 0,
               rng := fun i => i, buf := [1, 2, 3, 4], size := 4, access_res := 0,
               backendWrite := fun _ _ => 4 },
             { r_err := 0, r_delay := 0, r_part := 0, r_corr1 := 0, r_corr2 := 0,
               rng := fun i => i, buf := [5, 6], size := 2, access_res := 0,
               backendWrite := fun _ _ => -1 }]).2) ∧
    ((fs_fault_read disabled_config zero_stats 0 0 0 0 false 0 (fun _ => 4) 4).stats.bytes_read
        = zero_stats.bytes_read +
          (if (fs_fault_read disabled_config zero_stats 0 0 0 0 false 0 (fun _ => 4)
                4).backend_invoked = true ∧
              0 < (fs_fault_read disabled_config zero_stats 0 0 0 0 false 0 (fun _ => 4) 4).ret
           then (fs_fault_read disabled_config zero_stats 0 0 0 0 false 0 (fun _ => 4)
                4).ret.toNat else 0) ∧
      (fs_fault_read disabled_config zero_stats 0 0 0 0 false 0 (fun _ => 4)
          4).stats.bytes_written = zero_stats.bytes_written) := by
  constructor
  · exact ⟨rfl, bytes_counter_backend_sum.1 enabled_empty_config 0
      [{ r_err := 0, r_delay := 0, r_part := 0, r_corr1 := 0, r_corr2 := 0,
         rng := fun i => i, buf := [1, 2, 3, 4], size := 4, access_res := 0,
         backendWrite := fun _ _ => 4 },
       { r_err := 0, r_delay := 0, r_part := 0, r_corr1 := 0, r_corr2 := 0,
         rng := fun i => i, buf := [5, 6], size := 2, access_res := 0,
         backendWrite := fun _ _ => -1 }] zero_stats rfl⟩
  · exact bytes_counter_backend_sum.2 disabled_config zero_stats 0 0 0 0 false 0
      (fun _ => 4) 4

end NasFaultSim
